import Mathlib

/-!
Verification of the circle-follow behavior in
`src/week2/custom_behavior_methods.py` (repository MHA963/MAS).

The file embeds the two Python functions `beh_diff_circle_follow` and
`CircleFollow` as Lean functions over the reals.  numpy's `arctan2` is
embedded via `Complex.arg` (both have range `(-π, π]` and send `(0, 0)` to
`0`), `np.tanh` via `Real.tanh`, and the external library helper
`irsim.util.util.WrapToPi` as the mathematical wrap of an angle into
`(-π, π]`.  The 2×1 numpy arrays (velocity limits and commanded
velocities) are embedded as `Matrix (Fin 2) (Fin 1) ℝ`.
-/

set_option linter.unusedVariables false

noncomputable section

namespace MAS

open Real

/-- Embedding of `np.arctan2 y x`: the angle of the point `(x, y)`,
realised as `Complex.arg (x + y i)`; in particular `arctan2 0 0 = 0`,
matching numpy. -/
def arctan2 (y x : ℝ) : ℝ := Complex.arg (x + y * Complex.I)

/-- Embedding of `irsim.util.util.WrapToPi`: wrap an angle into the
interval `(-π, π]` by subtracting the appropriate multiple of `2π`. -/
def WrapToPi (rad : ℝ) : ℝ := rad - 2 * π * ⌈(rad - π) / (2 * π)⌉

/-- The ego object as used by `beh_diff_circle_follow`: it exposes a state
`[x, y, theta]` and a velocity range `[min_vel, max_vel]` (a pair of 2×1
arrays, linear on top, angular below). -/
structure EgoObject where
  state : ℝ × ℝ × ℝ
  vel_range : Matrix (Fin 2) (Fin 1) ℝ × Matrix (Fin 2) (Fin 1) ℝ

/-- `ego_object.get_vel_range()` returns the pair `[min_vel, max_vel]`. -/
def EgoObject.get_vel_range (e : EgoObject) :
    Matrix (Fin 2) (Fin 1) ℝ × Matrix (Fin 2) (Fin 1) ℝ :=
  e.vel_range

/-- Embedding of `CircleFollow(state, max_vel, center, radius)`:
calculate linear and angular velocity for circular motion.  The body
mirrors the Python source line by line (including the unused local
`distance` and the unused parameter `radius`). -/
def CircleFollow (state : ℝ × ℝ × ℝ) (max_vel : Matrix (Fin 2) (Fin 1) ℝ)
    (center : ℝ × ℝ) (radius : ℝ) : Matrix (Fin 2) (Fin 1) ℝ :=
  let x := state.1
  let y := state.2.1
  let theta := state.2.2
  let vec_to_center : ℝ × ℝ := (center.1 - x, center.2 - y)
  let distance := Real.sqrt (vec_to_center.1 ^ 2 + vec_to_center.2 ^ 2)
  let angle_to_center := arctan2 vec_to_center.2 vec_to_center.1
  let tangential_angle := angle_to_center + π / 2
  let angle_diff := WrapToPi (tangential_angle - theta)
  let linear_speed := max 0.1 (max_vel 0 0 * 0.5)
  let angular_speed := max_vel 1 0 * Real.tanh (2 * angle_diff)
  Matrix.of ![![linear_speed], ![angular_speed]]

/-- Embedding of `beh_diff_circle_follow(ego_object, external_objects=None,
**kwargs)`.  The optional `external_objects` argument is `Option`-valued
(`none` models Python's `None`); the keyword arguments are the two
`Option`s for the keys `"center"` and `"radius"`, with `kwargs.get`
modelled by `Option.getD` with the source defaults. -/
def beh_diff_circle_follow {α : Type} (ego_object : EgoObject)
    (external_objects : Option (List α)) (center_kw : Option (ℝ × ℝ))
    (radius_kw : Option ℝ) : Matrix (Fin 2) (Fin 1) ℝ :=
  let external_objects := external_objects.getD []
  let state := ego_object.state
  let max_vel := ego_object.get_vel_range.2
  let CENTER := center_kw.getD (5.0, 5.0)
  let RADIUS := radius_kw.getD 2.0
  CircleFollow state max_vel CENTER RADIUS

/-- The wrapped angle difference computed on lines 31–36 of the source:
the counter-clockwise tangential direction (angle from the robot to the
center plus `π/2`) minus the heading `theta`, wrapped into `(-π, π]`. -/
def wrappedDiff (state : ℝ × ℝ × ℝ) (center : ℝ × ℝ) : ℝ :=
  WrapToPi (arctan2 (center.2 - state.2.1) (center.1 - state.1) + π / 2 - state.2.2)

/-- The position part of a state `[x, y, theta]`. -/
def position (state : ℝ × ℝ × ℝ) : ℝ × ℝ := (state.1, state.2.1)

end MAS

end

namespace MAS

/- Component-access lemmas: the two entries of the returned 2×1 array. -/

lemma CircleFollow_linear (state : ℝ × ℝ × ℝ) (max_vel : Matrix (Fin 2) (Fin 1) ℝ)
    (center : ℝ × ℝ) (radius : ℝ) :
    CircleFollow state max_vel center radius 0 0 = max 0.1 (max_vel 0 0 * 0.5) := rfl

lemma CircleFollow_angular (state : ℝ × ℝ × ℝ) (max_vel : Matrix (Fin 2) (Fin 1) ℝ)
    (center : ℝ × ℝ) (radius : ℝ) :
    CircleFollow state max_vel center radius 1 0 =
      max_vel 1 0 * Real.tanh (2 * wrappedDiff state center) := rfl

/- General facts about `Real.tanh` needed below (Mathlib 4.14 does not
provide boundedness or monotonicity of `tanh`). -/

lemma tanh_lt_one (x : ℝ) : Real.tanh x < 1 := by
  rw [Real.tanh_eq_sinh_div_cosh, div_lt_one (Real.cosh_pos x)]
  exact Real.sinh_lt_cosh x

lemma neg_one_lt_tanh (x : ℝ) : -1 < Real.tanh x := by
  rw [Real.tanh_eq_sinh_div_cosh, lt_div_iff₀ (Real.cosh_pos x)]
  have h1 := Real.exp_pos x
  rw [Real.sinh_eq, Real.cosh_eq]
  linarith

lemma abs_tanh_le_one (x : ℝ) : |Real.tanh x| ≤ 1 :=
  abs_le.2 ⟨(neg_one_lt_tanh x).le, (tanh_lt_one x).le⟩

lemma tanh_strictMono : StrictMono Real.tanh := by
  intro a b hab
  rw [Real.tanh_eq_sinh_div_cosh, Real.tanh_eq_sinh_div_cosh,
    div_lt_div_iff₀ (Real.cosh_pos a) (Real.cosh_pos b)]
  have h : 0 < Real.sinh (b - a) := Real.sinh_pos_iff.2 (sub_pos.2 hab)
  rw [Real.sinh_sub] at h
  nlinarith [Real.cosh_pos a, Real.cosh_pos b]

lemma tanh_pos_iff (x : ℝ) : 0 < Real.tanh x ↔ 0 < x := by
  nth_rewrite 1 [← Real.tanh_zero]
  exact tanh_strictMono.lt_iff_lt

lemma tanh_eq_zero_iff (x : ℝ) : Real.tanh x = 0 ↔ x = 0 := by
  nth_rewrite 1 [← Real.tanh_zero]
  exact tanh_strictMono.injective.eq_iff

lemma tanh_neg_iff (x : ℝ) : Real.tanh x < 0 ↔ x < 0 := by
  nth_rewrite 1 [← Real.tanh_zero]
  exact tanh_strictMono.lt_iff_lt

lemma mul_tanh_pos_iff (c d : ℝ) (hc : 0 < c) :
    0 < c * Real.tanh (2 * d) ↔ 0 < d := by
  rw [mul_pos_iff_of_pos_left hc, tanh_pos_iff]
  constructor <;> intro h <;> linarith

lemma mul_tanh_eq_zero_iff (c d : ℝ) (hc : 0 < c) :
    c * Real.tanh (2 * d) = 0 ↔ d = 0 := by
  rw [mul_eq_zero, or_iff_right hc.ne', tanh_eq_zero_iff]
  constructor <;> intro h <;> linarith

lemma mul_tanh_neg_iff (c d : ℝ) (hc : 0 < c) :
    c * Real.tanh (2 * d) < 0 ↔ d < 0 := by
  constructor
  · intro h
    rcases lt_trichotomy d 0 with hd | hd | hd
    · exact hd
    · rw [hd, mul_zero, Real.tanh_zero, mul_zero] at h
      exact absurd h (lt_irrefl 0)
    · have := (mul_tanh_pos_iff c d hc).2 hd
      linarith
  · intro h
    exact mul_neg_of_pos_of_neg hc ((tanh_neg_iff _).2 (by linarith))

/-- Unfolding lemma: the full returned 2×1 array of `CircleFollow`. -/
lemma CircleFollow_eq (state : ℝ × ℝ × ℝ) (max_vel : Matrix (Fin 2) (Fin 1) ℝ)
    (center : ℝ × ℝ) (radius : ℝ) :
    CircleFollow state max_vel center radius =
      Matrix.of ![![max 0.1 (max_vel 0 0 * 0.5)],
        ![max_vel 1 0 * Real.tanh (2 * wrappedDiff state center)]] := rfl

/-- C1: the commanded velocity returned by `CircleFollow` does not depend
on the `radius` argument at all: for every pose, velocity limit and
center, any two radii produce the same commanded velocity.  This
contradicts the claim (and the function's own docstring, which says the
robot follows a circle "with RADIUS"); `radius` and the computed
`distance` are never used in the body. -/
theorem CircleFollow_ignores_radius (state : ℝ × ℝ × ℝ)
    (max_vel : Matrix (Fin 2) (Fin 1) ℝ) (center : ℝ × ℝ) (r1 r2 : ℝ) :
    CircleFollow state max_vel center r1 = CircleFollow state max_vel center r2 := rfl

/-- C2 counterexample: with maximum linear velocity `0`, the commanded
linear speed is `0.1`, not `0 * 0.5 = 0`; the claim that the linear speed
always equals half the maximum linear velocity is false. -/
theorem CircleFollow_linear_not_always_half_max :
    CircleFollow (0, 0, 0) (Matrix.of ![![(0 : ℝ)], ![1]]) (5, 5) 2 0 0 ≠
      Matrix.of ![![(0 : ℝ)], ![1]] 0 0 * 0.5 := by
  have h : Matrix.of ![![(0 : ℝ)], ![1]] 0 0 = 0 := rfl
  rw [CircleFollow_linear, h]
  norm_num

/-- C2 (amended): whenever the maximum linear velocity `max_vel[0,0]` is
at least `0.2`, the commanded linear speed returned by `CircleFollow`
equals half the maximum linear velocity (in general it is
`max(0.1, 0.5 * max_vel[0,0])`). -/
theorem CircleFollow_linear_half_max (state : ℝ × ℝ × ℝ)
    (max_vel : Matrix (Fin 2) (Fin 1) ℝ) (center : ℝ × ℝ) (radius : ℝ)
    (h : 0.2 ≤ max_vel 0 0) :
    CircleFollow state max_vel center radius 0 0 = max_vel 0 0 * 0.5 := by
  rw [CircleFollow_linear]
  exact max_eq_right (by linarith)

/-- Witness for C2 (amended) at max linear velocity `1`. -/
theorem CircleFollow_linear_half_max_witness :
    CircleFollow (0, 0, 0) (Matrix.of ![![(1 : ℝ)], ![1]]) (5, 5) 2 0 0 =
      Matrix.of ![![(1 : ℝ)], ![1]] 0 0 * 0.5 :=
  CircleFollow_linear_half_max _ _ _ _ (by
    have h : Matrix.of ![![(1 : ℝ)], ![1]] 0 0 = 1 := rfl
    rw [h]; norm_num)

/-- C3: for every pose, center, radius and velocity range with
nonnegative maximum angular velocity `max_vel[1,0]`, the magnitude of the
commanded angular speed is at most `max_vel[1,0]` (the correction is
saturated by `tanh`, whose absolute value is at most one). -/
theorem CircleFollow_angular_bounded (state : ℝ × ℝ × ℝ)
    (max_vel : Matrix (Fin 2) (Fin 1) ℝ) (center : ℝ × ℝ) (radius : ℝ)
    (h : 0 ≤ max_vel 1 0) :
    |CircleFollow state max_vel center radius 1 0| ≤ max_vel 1 0 := by
  rw [CircleFollow_angular, abs_mul, abs_of_nonneg h]
  exact mul_le_of_le_one_right h (abs_tanh_le_one _)

/-- Witness for C3 at max angular velocity `1`. -/
theorem CircleFollow_angular_bounded_witness :
    |CircleFollow (0, 0, 0) (Matrix.of ![![(1 : ℝ)], ![1]]) (5, 5) 2 1 0| ≤
      Matrix.of ![![(1 : ℝ)], ![1]] 1 0 :=
  CircleFollow_angular_bounded _ _ _ _ (by
    have h : Matrix.of ![![(1 : ℝ)], ![1]] 1 0 = 1 := rfl
    rw [h]; norm_num)

/-- C4: for poses not at the center and positive maximum angular
velocity, the commanded angular speed is positive, zero or negative
exactly when the wrapped angle difference between the counter-clockwise
tangential direction and the heading is, and it is strictly increasing in
that wrapped difference. -/
theorem CircleFollow_steers_to_tangent (s1 s2 : ℝ × ℝ × ℝ)
    (max_vel : Matrix (Fin 2) (Fin 1) ℝ) (center : ℝ × ℝ) (radius : ℝ)
    (h1 : position s1 ≠ center) (h2 : position s2 ≠ center)
    (hmv : 0 < max_vel 1 0) :
    (0 < CircleFollow s1 max_vel center radius 1 0 ↔ 0 < wrappedDiff s1 center) ∧
    (CircleFollow s1 max_vel center radius 1 0 = 0 ↔ wrappedDiff s1 center = 0) ∧
    (CircleFollow s1 max_vel center radius 1 0 < 0 ↔ wrappedDiff s1 center < 0) ∧
    (wrappedDiff s1 center < wrappedDiff s2 center →
      CircleFollow s1 max_vel center radius 1 0 <
        CircleFollow s2 max_vel center radius 1 0) := by
  rw [CircleFollow_angular, CircleFollow_angular]
  exact ⟨mul_tanh_pos_iff _ _ hmv, mul_tanh_eq_zero_iff _ _ hmv,
    mul_tanh_neg_iff _ _ hmv,
    fun hlt => mul_lt_mul_of_pos_left (tanh_strictMono (by linarith)) hmv⟩

/-- Witness for C4 at two concrete poses away from the center `(5, 5)`. -/
theorem CircleFollow_steers_to_tangent_witness :
    (0 < CircleFollow (0, 0, 0) (Matrix.of ![![(1 : ℝ)], ![1]]) (5, 5) 2 1 0 ↔
      0 < wrappedDiff (0, 0, 0) (5, 5)) ∧
    (CircleFollow (0, 0, 0) (Matrix.of ![![(1 : ℝ)], ![1]]) (5, 5) 2 1 0 = 0 ↔
      wrappedDiff (0, 0, 0) (5, 5) = 0) ∧
    (CircleFollow (0, 0, 0) (Matrix.of ![![(1 : ℝ)], ![1]]) (5, 5) 2 1 0 < 0 ↔
      wrappedDiff (0, 0, 0) (5, 5) < 0) ∧
    (wrappedDiff (0, 0, 0) (5, 5) < wrappedDiff (1, 1, 1) (5, 5) →
      CircleFollow (0, 0, 0) (Matrix.of ![![(1 : ℝ)], ![1]]) (5, 5) 2 1 0 <
        CircleFollow (1, 1, 1) (Matrix.of ![![(1 : ℝ)], ![1]]) (5, 5) 2 1 0) :=
  CircleFollow_steers_to_tangent (0, 0, 0) (1, 1, 1) _ _ _
    (by norm_num [position, Prod.ext_iff])
    (by norm_num [position, Prod.ext_iff])
    (by
      have h : Matrix.of ![![(1 : ℝ)], ![1]] 1 0 = 1 := rfl
      rw [h]; norm_num)

/-- C5: `beh_diff_circle_follow` is a pure deterministic function of the
ego state, the velocity range and the keyword arguments: two calls with
equal state, equal velocity range and equal kwargs return equal commanded
velocities, whatever the `external_objects` arguments are (they never
affect the result, even across different element types). -/
theorem beh_diff_circle_follow_pure (α β : Type) (e1 e2 : EgoObject)
    (eo1 : Option (List α)) (eo2 : Option (List β))
    (center_kw : Option (ℝ × ℝ)) (radius_kw : Option ℝ)
    (hs : e1.state = e2.state) (hv : e1.get_vel_range = e2.get_vel_range) :
    beh_diff_circle_follow e1 eo1 center_kw radius_kw =
      beh_diff_circle_follow e2 eo2 center_kw radius_kw := by
  simp only [beh_diff_circle_follow]
  rw [hs, hv]

/-- Witness for C5: two calls on the same ego object with different
`external_objects` (an empty list versus `None`, of different element
types) coincide. -/
theorem beh_diff_circle_follow_pure_witness :
    beh_diff_circle_follow
        (EgoObject.mk (0, 0, 0) (Matrix.of ![![(0 : ℝ)], ![0]], Matrix.of ![![(1 : ℝ)], ![1]]))
        (some ([] : List Unit)) none none =
      beh_diff_circle_follow
        (EgoObject.mk (0, 0, 0) (Matrix.of ![![(0 : ℝ)], ![0]], Matrix.of ![![(1 : ℝ)], ![1]]))
        (none : Option (List Bool)) none none :=
  beh_diff_circle_follow_pure Unit Bool _ _ _ _ _ _ rfl rfl

/-- C6: default-argument substitution: calling `beh_diff_circle_follow`
with kwargs lacking `"center"` and `"radius"` returns the same commanded
velocity as calling it with `center = [5.0, 5.0]` and `radius = 2.0`, and
passing `external_objects = None` behaves the same as passing the empty
list. -/
theorem beh_diff_circle_follow_defaults (α : Type) (ego_object : EgoObject) :
    beh_diff_circle_follow ego_object (none : Option (List α)) none none =
      beh_diff_circle_follow ego_object (some ([] : List α))
        (some (5.0, 5.0)) (some 2.0) := rfl

/-- C7: for every pose and velocity range, `CircleFollow` returns a 2×1
array of exactly two components, the linear speed on top and the angular
speed below. -/
theorem CircleFollow_two_components (state : ℝ × ℝ × ℝ)
    (max_vel : Matrix (Fin 2) (Fin 1) ℝ) (center : ℝ × ℝ) (radius : ℝ) :
    CircleFollow state max_vel center radius =
      Matrix.of ![![max 0.1 (max_vel 0 0 * 0.5)],
        ![max_vel 1 0 * Real.tanh (2 * wrappedDiff state center)]] := rfl

/-- C8: the commanded linear speed is always at least `0.1`; when the
maximum linear velocity is below `0.2` it is exactly `0.1`, and when the
maximum linear velocity is below `0.1` the commanded linear speed exceeds
that stated actuator maximum. -/
theorem CircleFollow_linear_min_bound (state : ℝ × ℝ × ℝ)
    (max_vel : Matrix (Fin 2) (Fin 1) ℝ) (center : ℝ × ℝ) (radius : ℝ) :
    0.1 ≤ CircleFollow state max_vel center radius 0 0 ∧
    (max_vel 0 0 < 0.2 → CircleFollow state max_vel center radius 0 0 = 0.1) ∧
    (max_vel 0 0 < 0.1 → max_vel 0 0 < CircleFollow state max_vel center radius 0 0) := by
  simp only [CircleFollow_linear]
  exact ⟨le_max_left _ _, fun h => max_eq_left (by linarith),
    fun h => lt_of_lt_of_le (by linarith) (le_max_left _ _)⟩

/-- Witness for C8 at maximum linear velocity `0`: the commanded linear
speed is `0.1`, exceeding the actuator maximum. -/
theorem CircleFollow_linear_min_bound_witness :
    0.1 ≤ CircleFollow (0, 0, 0) (Matrix.of ![![(0 : ℝ)], ![1]]) (5, 5) 2 0 0 ∧
    CircleFollow (0, 0, 0) (Matrix.of ![![(0 : ℝ)], ![1]]) (5, 5) 2 0 0 = 0.1 ∧
    Matrix.of ![![(0 : ℝ)], ![1]] 0 0 <
      CircleFollow (0, 0, 0) (Matrix.of ![![(0 : ℝ)], ![1]]) (5, 5) 2 0 0 := by
  have h : Matrix.of ![![(0 : ℝ)], ![1]] 0 0 = 0 := rfl
  exact ⟨(CircleFollow_linear_min_bound (0, 0, 0) _ (5, 5) 2).1,
    (CircleFollow_linear_min_bound (0, 0, 0) _ (5, 5) 2).2.1 (by rw [h]; norm_num),
    (CircleFollow_linear_min_bound (0, 0, 0) _ (5, 5) 2).2.2 (by rw [h]; norm_num)⟩

/-- C9: `CircleFollow` is total at the singular pose: when the robot's
position equals the center, `arctan2 0 0 = 0` (so the tangential angle is
`π/2`), and the function still returns the well-defined commanded
velocity built from the wrapped difference `WrapToPi (π/2 - θ)`. -/
theorem CircleFollow_total_at_center (theta : ℝ)
    (max_vel : Matrix (Fin 2) (Fin 1) ℝ) (center : ℝ × ℝ) (radius : ℝ) :
    arctan2 0 0 = 0 ∧
    wrappedDiff (center.1, center.2, theta) center = WrapToPi (Real.pi / 2 - theta) ∧
    CircleFollow (center.1, center.2, theta) max_vel center radius =
      Matrix.of ![![max 0.1 (max_vel 0 0 * 0.5)],
        ![max_vel 1 0 * Real.tanh (2 * WrapToPi (Real.pi / 2 - theta))]] := by
  have h0 : arctan2 0 0 = 0 := by simp [arctan2]
  have hw : wrappedDiff (center.1, center.2, theta) center =
      WrapToPi (Real.pi / 2 - theta) := by
    simp [wrappedDiff, h0]
  exact ⟨h0, hw, by rw [CircleFollow_eq, hw]⟩

end MAS
